import Mathlib

/-!
The movie handlers of goimdb (`main.go`) over a table model.

The four HTTP handlers of `main.go` are embedded as pure functions over an explicit
table `DB` (the rows of `goimdb` plus the AUTO_INCREMENT counter) and a record of
driver failures for the request being served.  Library calls the handlers make
(`strings.Split`, `strings.Join`, `strconv.Atoi`, `fmt.Sprintf("%v", bool)`,
`Rows.Scan`) are modelled by the definitions of the first sections.
-/

namespace GoImdb

/-! ## `strings.Split` and `strings.Join` with a one-character separator -/

namespace strings

/-- Puts `c` in front of the first piece of a split. -/
def consFirst (c : Char) : List (List Char) → List (List Char)
  | [] => [[c]]
  | h :: t => (c :: h) :: t

/-- The pieces of a character sequence between the occurrences of `sep`:
`strings.Split` cuts at every separator and always yields the rest as last piece. -/
def splitChars (sep : Char) : List Char → List (List Char)
  | [] => [[]]
  | c :: cs => if c = sep then [] :: splitChars sep cs else consFirst c (splitChars sep cs)

/-- The elements written one after the other with `sep` between neighbours:
`strings.Join` yields the empty string for no element and the element itself for one. -/
def joinChars (sep : Char) : List (List Char) → List Char
  | [] => []
  | [e] => e
  | e :: e2 :: es => e ++ sep :: joinChars sep (e2 :: es)

/-- Go `strings.Split(s, sep)` for a separator of one character. -/
def Split (s : String) (sep : Char) : List String :=
  (splitChars sep s.data).map String.mk

/-- Go `strings.Join(elems, sep)` for a separator of one character. -/
def Join (elems : List String) (sep : Char) : String :=
  String.mk (joinChars sep (elems.map String.data))

end strings

/-! ## Go error values -/

/-- The two failures of `strconv` number parsing (`strconv.ErrSyntax`, `strconv.ErrRange`). -/
inductive NumErrKind where
  | ErrSyntax
  | ErrRange
  deriving DecidableEq, Repr

/-- The `error` values the handlers can meet.  `ErrNoRows` is the sentinel `sql.ErrNoRows`;
`NumError` is `*strconv.NumError`; `ScanArgs want got` is the error of `Rows.Scan` called with
`got` destinations on a result of `want` columns; `ScanColumn i` is the error of `Rows.Scan`
when column `i` cannot be converted to its destination; `Driver msg` is an error reported by
the driver, whose `Error()` text is `msg`. -/
inductive GoError where
  | ErrNoRows
  | NumError (fn num : String) (err : NumErrKind)
  | ScanArgs (want got : Nat)
  | ScanColumn (index : Nat)
  | Driver (msg : String)
  deriving DecidableEq, Repr

/-! ## `strconv` and `fmt` -/

namespace strconv

/-- Largest `uint64`. -/
def maxUint64 : Nat := 2 ^ 64 - 1

/-- The digit loop of `strconv.ParseUint(s, 10, 64)`: a byte outside `0..9` is a syntax error,
an accumulator that leaves the `uint64` range is a range error; errors are raised in the
order of the bytes. -/
def parseUintLoop : List Char → Nat → Except NumErrKind Nat
  | [], n => .ok n
  | c :: cs, n =>
    if '0' ≤ c ∧ c ≤ '9' then
      if n ≥ maxUint64 / 10 + 1 then .error .ErrRange
      else if n * 10 + (c.toNat - '0'.toNat) > maxUint64 then .error .ErrRange
      else parseUintLoop cs (n * 10 + (c.toNat - '0'.toNat))
    else .error .ErrSyntax

/-- Go `strconv.ParseUint(s, 10, 64)`. -/
def ParseUint (s : List Char) : Except NumErrKind Nat :=
  match s with
  | [] => .error .ErrSyntax
  | _ => parseUintLoop s 0

/-- The magnitude check of `strconv.ParseInt(s, 10, 0)` on a 64-bit platform, after the sign
has been cut off: a syntax error of `ParseUint` is passed on, a range error of `ParseUint`
or a magnitude outside `int64` is a range error. -/
def parseIntSigned (neg : Bool) (digits : List Char) : Except NumErrKind Int :=
  match ParseUint digits with
  | .error .ErrSyntax => .error .ErrSyntax
  | .error .ErrRange => .error .ErrRange
  | .ok un =>
    if !neg && un ≥ 2 ^ 63 then .error .ErrRange
    else if neg && un > 2 ^ 63 then .error .ErrRange
    else if neg then .ok (-(un : Int)) else .ok (un : Int)

/-- Go `strconv.ParseInt(s, 10, 0)` with `int` of 64 bits. -/
def ParseInt (s : List Char) : Except NumErrKind Int :=
  match s with
  | [] => .error .ErrSyntax
  | '+' :: rest => parseIntSigned false rest
  | '-' :: rest => parseIntSigned true rest
  | _ => parseIntSigned false s

/-- Go `strconv.Atoi(s)`.  `Atoi` has a fast path for short strings that computes the same
result as `ParseInt(s, 10, 0)`; the error names the function `Atoi` and the input. -/
def Atoi (s : String) : Except GoError Int :=
  match ParseInt s.data with
  | .ok n => .ok n
  | .error k => .error (.NumError "Atoi" s k)

/-- Go `strconv.ParseBool(str)`; `none` is its syntax error. -/
def ParseBool (str : String) : Option Bool :=
  if str = "1" ∨ str = "t" ∨ str = "T" ∨ str = "true" ∨ str = "TRUE" ∨ str = "True" then
    some true
  else if str = "0" ∨ str = "f" ∨ str = "F" ∨ str = "false" ∨ str = "FALSE"
      ∨ str = "False" then
    some false
  else none

end strconv

/-- Go `fmt.Sprintf("%v", b)` for a `bool`. -/
def fmtBool (b : Bool) : String := if b then "true" else "false"

/-! ## Data model -/

/-- A Go `float32`, held as its IEEE-754 binary32 bit pattern.  The handlers only move
ratings between the request, the table and the response. -/
abbrev Float32 := Nat

/-- The `float32` 8.0 (sign 0, exponent 130, mantissa 0). -/
def rating8 : Float32 := 0x41000000

/-- The struct `Movie` of `main.go`. -/
structure Movie where
  ID : Int
  ImdbID : String
  Title : String
  Year : Int
  Rating : Float32
  Genres : List String
  IsSuperHero : Bool
  deriving DecidableEq, Repr

/-- The zero value `Movie{}`. -/
def Movie.zero : Movie :=
  { ID := 0, ImdbID := "", Title := "", Year := 0, Rating := 0, Genres := [],
    IsSuperHero := false }

/-- One row of table `goimdb`, columns as declared by the `CREATE TABLE` of `main`:
`genresText` is the only nullable column; `isSuperHero` holds the text the handlers pass to
`Exec` (the result of `fmt.Sprintf`), which `Scan` converts to a `bool`. -/
structure Row where
  id : Int
  imdbID : String
  title : String
  year : Int
  rating : Float32
  genresText : Option String
  isSuperHero : String
  deriving DecidableEq, Repr

/-- The table `goimdb`: its rows in the order the store returns them, and the next value of
the AUTO_INCREMENT column `id`. -/
structure DB where
  rows : List Row
  nextId : Int
  deriving DecidableEq, Repr

/-- What the driver does wrong while one request is served: `prepareErr` makes `db.Prepare`
fail, `execErr` makes `stmt.Exec` fail before the statement reaches the table, `queryErr`
makes `db.Query` or `db.QueryRow` fail, `rowsErr` is what `rows.Err()` reports once the rows
have been delivered.  `updateLastInsertId` is what `LastInsertId()` yields on the result of an
UPDATE, which the driver does not define. -/
structure Driver where
  prepareErr : Option String
  execErr : Option String
  queryErr : Option String
  rowsErr : Option String
  updateLastInsertId : Int
  deriving DecidableEq, Repr

/-- A driver that fails nowhere. -/
def Driver.healthy : Driver :=
  { prepareErr := none, execErr := none, queryErr := none, rowsErr := none,
    updateLastInsertId := 0 }

/-- The value handed to `c.JSON`: a slice of movies, one movie, a string, the string
`pre + err.Error()` of an error whose text is not spelled out here, or a
`map[string]string`. -/
inductive Body where
  | movies (ms : List Movie)
  | movie (m : Movie)
  | str (s : String)
  | errStr (pre : String) (e : GoError)
  | obj (kv : List (String × String))
  deriving DecidableEq, Repr

/-- How a handler ends: `log.Fatal` stops the process, `c.JSON(status, body)` answers. -/
inductive Outcome where
  | fatal (msg : String)
  | json (status : Nat) (body : Body)
  deriving DecidableEq, Repr

/-- The status of an answer; `none` when the process was stopped. -/
def Outcome.status : Outcome → Option Nat
  | .fatal _ => none
  | .json s _ => some s

/-- The string `pre + err.Error()` as a body: spelled out for a driver error. -/
def jsonError (pre : String) : GoError → Body
  | .Driver msg => .str (pre ++ msg)
  | e => .errStr pre e

/-! ## `database/sql` over the table -/

/-- First check of `Rows.Scan`: the number of destinations must be the number of columns. -/
def scanArgs (columns dests : Nat) : Option GoError :=
  if dests ≠ columns then some (.ScanArgs columns dests) else none

/-- `Scan` of a nullable text column into a `*string`: NULL cannot be converted. -/
def scanString (index : Nat) : Option String → Except GoError String
  | none => .error (.ScanColumn index)
  | some s => .ok s

/-- `Scan` of a text value into a `*bool`, which goes through `strconv.ParseBool`. -/
def scanBool (index : Nat) : Option String → Except GoError Bool
  | none => .error (.ScanColumn index)
  | some s =>
    match strconv.ParseBool s with
    | none => .error (.ScanColumn index)
    | some b => .ok b

/-- The call `Scan(&m.ID, &m.ImdbID, &m.Title, &m.Year, &m.Rating, &genresText,
&m.IsSuperHero)` on a row of the seven selected columns: the movie with `Genres` still unset,
and `genresText`. -/
def scanMovie (r : Row) : Except GoError (Movie × String) :=
  match scanArgs 7 7 with
  | some e => .error e
  | none =>
    match scanString 5 r.genresText with
    | .error e => .error e
    | .ok genresText =>
      match scanBool 6 (some r.isSuperHero) with
      | .error e => .error e
      | .ok b =>
        .ok ({ ID := r.id, ImdbID := r.imdbID, Title := r.title, Year := r.year,
               Rating := r.rating, Genres := [], IsSuperHero := b }, genresText)

/-- The call `Scan(&m.ID, &m.ImdbID, &m.Title, &m.Year, &m.Rating, &m.IsSuperHero)` of the
filtered path, on a row of the same seven selected columns: six destinations, the sixth of
which (`&m.IsSuperHero`) stands at the place of column `genresText`. -/
def scanMovieNoGenres (r : Row) : Except GoError Movie :=
  match scanArgs 7 6 with
  | some e => .error e
  | none =>
    match scanBool 5 r.genresText with
    | .error e => .error e
    | .ok b =>
      .ok { ID := r.id, ImdbID := r.imdbID, Title := r.title, Year := r.year,
            Rating := r.rating, Genres := [], IsSuperHero := b }

/-- `db.Query` of a SELECT of all columns with the WHERE clause `keep`. -/
def query (db : DB) (drv : Driver) (keep : Row → Bool) : Except String (List Row) :=
  match drv.queryErr with
  | some e => .error e
  | none => .ok (db.rows.filter keep)

/-- `db.QueryRow(... WHERE imdbID = ?, id).Scan(...)`: the error of the query, else
`sql.ErrNoRows` when no row came (after `rows.Err()`), else the scan of the first row. -/
def queryRowScan (db : DB) (drv : Driver) (id : String) : Except GoError (Movie × String) :=
  match query db drv (fun r => decide (r.imdbID = id)) with
  | .error e => .error (.Driver e)
  | .ok [] =>
    match drv.rowsErr with
    | some e => .error (.Driver e)
    | none => .error .ErrNoRows
  | .ok (r :: _) => scanMovie r

/-- The INSERT of `createMoviesHandler`: column `imdbID` is UNIQUE, `id` is AUTO_INCREMENT;
the result carries the id given to the new row.  The store reports a second row with the
same `imdbID` by the message the handler compares with. -/
def execInsert (db : DB) (drv : Driver) (imdbID title : String) (year : Int)
    (rating : Float32) (genresText isSuperHero : String) : Except String (Int × DB) :=
  match drv.execErr with
  | some e => .error e
  | none =>
    if db.rows.any (fun r => decide (r.imdbID = imdbID)) then
      .error "UNIQUE constraint violation"
    else
      .ok (db.nextId,
        { rows := db.rows ++ [{ id := db.nextId, imdbID := imdbID, title := title,
                                year := year, rating := rating,
                                genresText := some genresText,
                                isSuperHero := isSuperHero }],
          nextId := db.nextId + 1 })

/-- The UPDATE of `updateMoviesHandler`: sets the five columns of every row
`WHERE imdbID = ?`. -/
def execUpdate (db : DB) (drv : Driver) (title : String) (year : Int) (rating : Float32)
    (genresText isSuperHero : String) (imdbID : String) : Except String (Int × DB) :=
  match drv.execErr with
  | some e => .error e
  | none =>
    .ok (drv.updateLastInsertId,
      { db with rows := db.rows.map (fun r =>
          if r.imdbID = imdbID then
            { r with title := title, year := year, rating := rating,
                     genresText := some genresText, isSuperHero := isSuperHero }
          else r) })

/-! ## The handlers -/

/-- The loop `for rows.Next()` of the unfiltered path: scan, split the genres, append;
the first scan error ends it. -/
def scanAll : List Row → List Movie → Except GoError (List Movie)
  | [], mvs => .ok mvs
  | r :: rest, mvs =>
    match scanMovie r with
    | .error e => .error e
    | .ok (m, genresText) =>
      scanAll rest (mvs ++ [{ m with Genres := strings.Split genresText ',' }])

/-- The loop `for rows.Next()` of the filtered path: scan, append. -/
def scanYear : List Row → List Movie → Except GoError (List Movie)
  | [], mvs => .ok mvs
  | r :: rest, mvs =>
    match scanMovieNoGenres r with
    | .error e => .error e
    | .ok m => scanYear rest (mvs ++ [m])

/-- The handler `getAllMoviesHandler`; `y` is `c.QueryParam("year")`, which is empty when the
parameter is absent. -/
def getAllMoviesHandler (db : DB) (drv : Driver) (y : String) : Outcome :=
  if y = "" then
    match query db drv (fun _ => true) with
    | .error e => .fatal ("query error" ++ e)
    | .ok rows =>
      match scanAll rows [] with
      | .error e => .json 500 (jsonError "scan:" e)
      | .ok mvs =>
        match drv.rowsErr with
        | some e => .json 500 (.str e)
        | none => .json 200 (.movies mvs)
  else
    match strconv.Atoi y with
    | .error e => .json 400 (jsonError "" e)
    | .ok year =>
      match query db drv (fun r => decide (r.year = year)) with
      | .error e => .json 500 (.str e)
      | .ok rows =>
        match scanYear rows [] with
        | .error e => .json 500 (jsonError "" e)
        | .ok mvs =>
          match drv.rowsErr with
          | some e => .json 500 (.str e)
          | none => .json 200 (.movies mvs)

/-- The handler `getMoviesByIdHandler`; `id` is the path parameter.  The genres are split
before the error is looked at, and only the success answer carries them. -/
def getMoviesByIdHandler (db : DB) (drv : Driver) (id : String) : Outcome :=
  match queryRowScan db drv id with
  | .ok (m, genresText) => .json 200 (.movie { m with Genres := strings.Split genresText ',' })
  | .error .ErrNoRows => .json 404 (.obj [("message!", "not found")])
  | .error e => .json 500 (jsonError "" e)

/-- The handler `createMoviesHandler`; `bind` is the result of `c.Bind(m)` on a zero `Movie`:
the decoded payload or the text of the bind error.  The table comes back with the answer. -/
def createMoviesHandler (db : DB) (drv : Driver) (bind : Except String Movie) :
    Outcome × DB :=
  match bind with
  | .error e => (.json 400 (.str e), db)
  | .ok m =>
    match drv.prepareErr with
    | some e => (.json 500 (.str e), db)
    | none =>
      match execInsert db drv m.ImdbID m.Title m.Year m.Rating (strings.Join m.Genres ',')
          (fmtBool m.IsSuperHero) with
      | .ok (id, db2) => (.json 201 (.movie { m with ID := id }), db2)
      | .error e =>
        if e = "UNIQUE constraint violation" then
          (.json 409 (.str "movie already exists"), db)
        else (.json 500 (.str e), db)

/-- The handler `updateMoviesHandler`; `id` is the path parameter, `bind` as for create. -/
def updateMoviesHandler (db : DB) (drv : Driver) (id : String) (bind : Except String Movie) :
    Outcome × DB :=
  match bind with
  | .error e => (.json 400 (.str e), db)
  | .ok m =>
    match drv.prepareErr with
    | some e => (.json 500 (.str e), db)
    | none =>
      match execUpdate db drv m.Title m.Year m.Rating (strings.Join m.Genres ',')
          (fmtBool m.IsSuperHero) id with
      | .ok (lastId, db2) => (.json 200 (.movie { m with ID := lastId }), db2)
      | .error e => (.json 500 (.str e), db)

/-- The table right after `main` has created it. -/
def DB.empty : DB := { rows := [], nextId := 1 }

/-- The payload of the scenario of the specification. -/
def alpha : Movie :=
  { ID := 0, ImdbID := "tt001", Title := "Alpha", Year := 2000, Rating := 0x40F00000,
    Genres := ["Action", "Drama"], IsSuperHero := false }

/-! ## Lemmas on splitting and joining -/

namespace strings

theorem splitChars_ne_nil (sep : Char) (s : List Char) : splitChars sep s ≠ [] := by
  cases s with
  | nil => simp [splitChars]
  | cons c cs =>
    by_cases h : c = sep
    · simp [splitChars, h]
    · cases hs : splitChars sep cs <;> simp [splitChars, h, hs, consFirst]

theorem joinChars_cons_of_ne_nil (sep : Char) (e : List Char) (es : List (List Char))
    (h : es ≠ []) : joinChars sep (e :: es) = e ++ sep :: joinChars sep es := by
  cases es with
  | nil => exact absurd rfl h
  | cons e2 es => rfl

theorem joinChars_consFirst (sep c : Char) (l : List (List Char)) (h : l ≠ []) :
    joinChars sep (consFirst c l) = c :: joinChars sep l := by
  match l, h with
  | [e], _ => rfl
  | e :: e2 :: es, _ => rfl

theorem joinChars_splitChars (sep : Char) (s : List Char) :
    joinChars sep (splitChars sep s) = s := by
  induction s with
  | nil => rfl
  | cons c cs ih =>
    by_cases h : c = sep
    · simp [splitChars, h, joinChars_cons_of_ne_nil sep [] _ (splitChars_ne_nil sep cs), ih]
    · simp [splitChars, h, joinChars_consFirst sep c _ (splitChars_ne_nil sep cs), ih]

theorem length_consFirst (c : Char) (l : List (List Char)) (h : l ≠ []) :
    (consFirst c l).length = l.length := by
  cases l with
  | nil => exact absurd rfl h
  | cons e es => rfl

theorem length_splitChars (sep : Char) (s : List Char) :
    (splitChars sep s).length = 1 + s.count sep := by
  induction s with
  | nil => rfl
  | cons c cs ih =>
    by_cases h : c = sep
    · subst h
      simp [splitChars, ih]
      omega
    · have h2 : (c == sep) = false := by simpa using h
      simp [splitChars, h, length_consFirst c _ (splitChars_ne_nil sep cs), ih,
        List.count_cons, h2]

theorem splitChars_of_not_mem (sep : Char) (e : List Char) (h : sep ∉ e) :
    splitChars sep e = [e] := by
  induction e with
  | nil => rfl
  | cons c cs ih =>
    have hc : c ≠ sep := fun hc => h (by simp [hc])
    have hcs : sep ∉ cs := fun hm => h (List.mem_cons_of_mem _ hm)
    simp [splitChars, hc, ih hcs, consFirst]

theorem splitChars_append_sep (sep : Char) (e rest : List Char) (h : sep ∉ e) :
    splitChars sep (e ++ sep :: rest) = e :: splitChars sep rest := by
  induction e with
  | nil => simp [splitChars]
  | cons c cs ih =>
    have hc : c ≠ sep := fun hc => h (by simp [hc])
    have hcs : sep ∉ cs := fun hm => h (List.mem_cons_of_mem _ hm)
    simp [splitChars, hc, ih hcs, consFirst]

theorem splitChars_joinChars (sep : Char) (es : List (List Char)) (hne : es ≠ [])
    (h : ∀ e ∈ es, sep ∉ e) : splitChars sep (joinChars sep es) = es := by
  induction es with
  | nil => exact absurd rfl hne
  | cons e es ih =>
    cases es with
    | nil => exact splitChars_of_not_mem sep e (h e (by simp))
    | cons e2 es =>
      have h1 : sep ∉ e := h e (by simp)
      have h2 : ∀ x ∈ e2 :: es, sep ∉ x := fun x hx => h x (List.mem_cons_of_mem _ hx)
      rw [joinChars_cons_of_ne_nil sep e _ (by simp), splitChars_append_sep sep e _ h1,
        ih (by simp) h2]

theorem Join_Split (s : String) (sep : Char) : Join (Split s sep) sep = s := by
  unfold Join Split
  rw [List.map_map]
  have : (String.data ∘ String.mk) = id := by
    funext l
    rfl
  rw [this, List.map_id, joinChars_splitChars]

theorem Split_Join (gs : List String) (sep : Char) (hne : gs ≠ [])
    (h : ∀ g ∈ gs, sep ∉ g.data) : Split (Join gs sep) sep = gs := by
  unfold Join Split
  have h1 : gs.map String.data ≠ [] := by simpa using hne
  have h2 : ∀ e ∈ gs.map String.data, sep ∉ e := by
    intro e he
    rcases List.mem_map.1 he with ⟨g, hg, rfl⟩
    exact h g hg
  show List.map String.mk (splitChars sep (joinChars sep (gs.map String.data))) = gs
  rw [splitChars_joinChars sep _ h1 h2, List.map_map]
  have : (String.mk ∘ String.data) = id := by
    funext g
    rfl
  rw [this, List.map_id]

theorem length_Split (s : String) (sep : Char) :
    (Split s sep).length = 1 + s.data.count sep := by
  unfold Split
  rw [List.length_map, length_splitChars]

end strings


/-! ## Lemmas on the table operations -/

theorem scanBool_fmtBool (i : Nat) (b : Bool) : scanBool i (some (fmtBool b)) = .ok b := by
  cases b <;> rfl

theorem any_imdbID_eq_false (rows : List Row) (k : String)
    (h : ∀ r ∈ rows, r.imdbID ≠ k) :
    rows.any (fun r => decide (r.imdbID = k)) = false := by
  induction rows with
  | nil => rfl
  | cons r rs ih =>
    have h1 : r.imdbID ≠ k := h r (by simp)
    have h2 := ih (fun x hx => h x (List.mem_cons_of_mem _ hx))
    simp only [List.any_cons, h2, Bool.or_false]
    exact decide_eq_false h1

theorem any_imdbID_eq_true (rows : List Row) (k : String)
    (h : ∃ r ∈ rows, r.imdbID = k) :
    rows.any (fun r => decide (r.imdbID = k)) = true := by
  rcases h with ⟨r, hr, hk⟩
  exact List.any_eq_true.2 ⟨r, hr, by simpa using hk⟩

theorem filter_imdbID_eq_nil (rows : List Row) (k : String)
    (h : ∀ r ∈ rows, r.imdbID ≠ k) :
    rows.filter (fun r => decide (r.imdbID = k)) = [] := by
  apply List.filter_eq_nil_iff.2
  intro r hr
  simpa using h r hr

theorem Atoi_error_kind (y : String) (e : GoError) (he : strconv.Atoi y = .error e) :
    ∃ k, e = .NumError "Atoi" y k := by
  unfold strconv.Atoi at he
  cases hp : strconv.ParseInt y.data with
  | ok n => simp [hp] at he
  | error k =>
    simp only [hp] at he
    exact ⟨k, (Except.error.inj he).symm⟩

theorem createMoviesHandler_fresh (db : DB) (drv : Driver) (m : Movie)
    (hp : drv.prepareErr = none) (hx : drv.execErr = none)
    (hfresh : ∀ r ∈ db.rows, r.imdbID ≠ m.ImdbID) :
    createMoviesHandler db drv (.ok m)
      = (.json 201 (.movie { m with ID := db.nextId }),
         { rows := db.rows ++ [{ id := db.nextId, imdbID := m.ImdbID, title := m.Title,
                                 year := m.Year, rating := m.Rating,
                                 genresText := some (strings.Join m.Genres ','),
                                 isSuperHero := fmtBool m.IsSuperHero }],
           nextId := db.nextId + 1 }) := by
  simp [createMoviesHandler, execInsert, hp, hx, any_imdbID_eq_false db.rows m.ImdbID hfresh]

theorem queryRowScan_append_fresh (rows : List Row) (n : Int) (drv : Driver) (r : Row)
    (hq : drv.queryErr = none) (hfresh : ∀ x ∈ rows, x.imdbID ≠ r.imdbID) :
    queryRowScan { rows := rows ++ [r], nextId := n } drv r.imdbID = scanMovie r := by
  simp [queryRowScan, query, hq, List.filter_append,
    filter_imdbID_eq_nil rows r.imdbID hfresh, List.filter_cons]

theorem scanMovie_written (id : Int) (imdbID title : String) (year : Int) (rating : Float32)
    (g : String) (b : Bool) :
    scanMovie { id := id, imdbID := imdbID, title := title, year := year, rating := rating,
                genresText := some g, isSuperHero := fmtBool b }
      = .ok ({ ID := id, ImdbID := imdbID, Title := title, Year := year, Rating := rating,
               Genres := [], IsSuperHero := b }, g) := by
  simp [scanMovie, scanArgs, scanString, scanBool_fmtBool]

theorem scanMovie_ok (r : Row) (m : Movie) (g : String) (h : scanMovie r = .ok (m, g)) :
    m = { ID := r.id, ImdbID := r.imdbID, Title := r.title, Year := r.year,
          Rating := r.rating, Genres := [], IsSuperHero := m.IsSuperHero } ∧
    r.genresText = some g ∧ strconv.ParseBool r.isSuperHero = some m.IsSuperHero := by
  unfold scanMovie at h
  simp only [scanArgs, scanString, scanBool] at h
  cases hg : r.genresText with
  | none => simp [hg] at h
  | some g0 =>
    cases hb : strconv.ParseBool r.isSuperHero with
    | none => simp [hg, hb] at h
    | some b =>
      simp only [hg, hb] at h
      have h2 := Except.ok.inj h
      have hm : m = _ := (congrArg Prod.fst h2).symm
      have hgg : g = g0 := (congrArg Prod.snd h2).symm
      subst hm
      subst hgg
      exact ⟨rfl, rfl, rfl⟩

theorem scanAll_ok (rows : List Row) (acc : List Movie)
    (h : ∀ r ∈ rows, ∃ mg, scanMovie r = .ok mg) :
    ∃ mvs, scanAll rows acc = .ok (acc ++ mvs) ∧
      List.Forall₂ (fun r m =>
        m.ID = r.id ∧ m.ImdbID = r.imdbID ∧ m.Title = r.title ∧ m.Year = r.year ∧
        m.Rating = r.rating ∧ strconv.ParseBool r.isSuperHero = some m.IsSuperHero ∧
        r.genresText.map (fun g => strings.Split g ',') = some m.Genres) rows mvs := by
  induction rows generalizing acc with
  | nil => exact ⟨[], by simp [scanAll], List.Forall₂.nil⟩
  | cons r rest ih =>
    obtain ⟨⟨m, g⟩, hmg⟩ := h r (by simp)
    obtain ⟨mvs, hmvs, hall⟩ := ih (acc ++ [{ m with Genres := strings.Split g ',' }])
      (fun x hx => h x (List.mem_cons_of_mem _ hx))
    obtain ⟨hm, hg, hb⟩ := scanMovie_ok r m g hmg
    refine ⟨{ m with Genres := strings.Split g ',' } :: mvs, ?_, List.Forall₂.cons ?_ hall⟩
    · simp only [scanAll, hmg, hmvs]
      simp
    · rw [hm]
      exact ⟨rfl, rfl, rfl, rfl, rfl, hb, by simp [hg]⟩

theorem filter_update_head (rows : List Row) (k : String) (f : Row → Row) (r : Row)
    (hf : ∀ x, (f x).imdbID = x.imdbID)
    (hfind : rows.find? (fun x => decide (x.imdbID = k)) = some r) :
    ∃ rest, (rows.map f).filter (fun x => decide (x.imdbID = k)) = f r :: rest := by
  induction rows with
  | nil => simp at hfind
  | cons x xs ih =>
    by_cases hx : x.imdbID = k
    · have hr : x = r := by simpa [List.find?_cons, hx] using hfind
      subst hr
      exact ⟨(xs.map f).filter (fun x => decide (x.imdbID = k)), by
        simp [List.filter_cons, hf, hx]⟩
    · have hfind2 : xs.find? (fun x => decide (x.imdbID = k)) = some r := by
        simpa [List.find?_cons, hx] using hfind
      obtain ⟨rest, hrest⟩ := ih hfind2
      exact ⟨rest, by simp [List.filter_cons, hf, hx, hrest]⟩

theorem scanMovieNoGenres_error (r : Row) :
    scanMovieNoGenres r = .error (.ScanArgs 7 6) := by
  simp [scanMovieNoGenres, scanArgs]

theorem Atoi_ok_ne_empty (y : String) (n : Int) (h : strconv.Atoi y = .ok n) : y ≠ "" := by
  intro hy
  subst hy
  cases h

theorem parseUintLoop_ok_digits (cs : List Char) (n v : Nat)
    (h : strconv.parseUintLoop cs n = .ok v) : ∀ c ∈ cs, '0' ≤ c ∧ c ≤ '9' := by
  induction cs generalizing n with
  | nil => simp
  | cons c cs ih =>
    unfold strconv.parseUintLoop at h
    split_ifs at h with h1 h2 h3
    · intro x hx
      rcases List.mem_cons.1 hx with rfl | hx
      · exact h1
      · exact ih _ h x hx

theorem parseIntSigned_ok (neg : Bool) (ds : List Char) (n : Int)
    (h : strconv.parseIntSigned neg ds = .ok n) :
    ds ≠ [] ∧ (∀ c ∈ ds, '0' ≤ c ∧ c ≤ '9') ∧ -(2 : Int) ^ 63 ≤ n ∧ n < 2 ^ 63 := by
  unfold strconv.parseIntSigned at h
  cases hP : strconv.ParseUint ds with
  | error k => cases k <;> simp [hP] at h
  | ok un =>
    have hne : ds ≠ [] := by
      intro hds
      subst hds
      simp [strconv.ParseUint] at hP
    have hloop : strconv.parseUintLoop ds 0 = .ok un := by
      cases ds with
      | nil => exact absurd rfl hne
      | cons c cs => simpa [strconv.ParseUint] using hP
    refine ⟨hne, parseUintLoop_ok_digits ds 0 un hloop, ?_⟩
    simp only [hP] at h
    cases neg
    · simp at h
      split_ifs at h with h1
      have hn : n = (un : Int) := (Except.ok.inj h).symm
      subst hn
      constructor <;> omega
    · simp at h
      split_ifs at h with h1
      have hn : n = -(un : Int) := (Except.ok.inj h).symm
      subst hn
      constructor <;> omega

theorem ParseInt_ok_shape (s : List Char) (n : Int) (h : strconv.ParseInt s = .ok n) :
    ∃ ds, ds ≠ [] ∧ (∀ c ∈ ds, '0' ≤ c ∧ c ≤ '9') ∧
      (s = ds ∨ s = '+' :: ds ∨ s = '-' :: ds) ∧ -(2 : Int) ^ 63 ≤ n ∧ n < 2 ^ 63 := by
  unfold strconv.ParseInt at h
  split at h
  · cases h
  · next rest =>
    obtain ⟨h1, h2, h3⟩ := parseIntSigned_ok false rest n h
    exact ⟨rest, h1, h2, Or.inr (Or.inl rfl), h3⟩
  · next rest =>
    obtain ⟨h1, h2, h3⟩ := parseIntSigned_ok true rest n h
    exact ⟨rest, h1, h2, Or.inr (Or.inr rfl), h3⟩
  · obtain ⟨h1, h2, h3⟩ := parseIntSigned_ok false s n h
    exact ⟨s, h1, h2, Or.inl rfl, h3⟩


/-! ## The claims -/

/-- C1 (as amended): for every non-empty sequence of genre strings none of which contains a
comma, joining with "," as the write handlers do and splitting on "," as the read handlers do
gives the sequence back. -/
theorem genres_join_split_roundtrip (gs : List String) (hne : gs ≠ [])
    (h : ∀ g ∈ gs, ',' ∉ g.data) :
    strings.Split (strings.Join gs ',') ',' = gs :=
  strings.Split_Join gs ',' hne h

/-- Witness of C1: the genres of the scenario. -/
theorem genres_join_split_roundtrip_witness :
    strings.Split (strings.Join ["Action", "Drama"] ',') ',' = ["Action", "Drama"] :=
  genres_join_split_roundtrip ["Action", "Drama"] (by decide) (by decide)

/-- Counterexample to C1 as stated: the empty sequence has no string with a comma, is
encoded as the empty text and decoded as the one-element sequence of the empty string. -/
theorem genres_join_split_empty_counterexample :
    (∀ g ∈ ([] : List String), ',' ∉ g.data) ∧
    strings.Join [] ',' = "" ∧
    strings.Split (strings.Join [] ',') ',' = [""] ∧
    strings.Split (strings.Join [] ',') ',' ≠ [] := by
  refine ⟨?_, ?_, ?_, ?_⟩ <;> decide

/-- C10: for every stored text `s`, splitting on "," and joining with "," gives `s` back, the
split has 1 + (number of commas of `s`) elements, and it is never empty. -/
theorem genresText_split_join_roundtrip (s : String) :
    strings.Join (strings.Split s ',') ',' = s ∧
    (strings.Split s ',').length = 1 + s.data.count ',' ∧
    strings.Split s ',' ≠ [] := by
  refine ⟨strings.Join_Split s ',', strings.length_Split s ',', ?_⟩
  intro h
  have := strings.length_Split s ','
  rw [h] at this
  simp at this
  omega

/-- C3 (as amended): for every non-empty value of `year` that `strconv.Atoi` fails to parse,
the list handler answers 400 with the text of the parse error and no movie, whatever the
table holds and whatever the driver does. -/
theorem list_year_not_numeric_bad_request (db : DB) (drv : Driver) (y : String) (e : GoError)
    (hy : y ≠ "") (he : strconv.Atoi y = .error e) :
    getAllMoviesHandler db drv y = .json 400 (.errStr "" e) ∧
    ∃ k, e = .NumError "Atoi" y k := by
  obtain ⟨k, hk⟩ := Atoi_error_kind y e he
  refine ⟨?_, k, hk⟩
  subst hk
  simp [getAllMoviesHandler, hy, he, jsonError]

/-- Witness of C3: `year=20x` on the table that holds the movie of the scenario. -/
theorem list_year_not_numeric_bad_request_witness :
    getAllMoviesHandler (createMoviesHandler DB.empty Driver.healthy (.ok alpha)).2
        Driver.healthy "20x"
      = .json 400 (.errStr "" (.NumError "Atoi" "20x" .ErrSyntax)) ∧
    ∃ k, GoError.NumError "Atoi" "20x" .ErrSyntax = .NumError "Atoi" "20x" k :=
  list_year_not_numeric_bad_request _ Driver.healthy "20x" _ (by decide) rfl

/-- Counterexample to C3 as stated: the empty value of `year` is not numeric (`Atoi` rejects
it), and the handler answers 200 with every movie of the table. -/
theorem list_year_empty_counterexample :
    strconv.Atoi "" = .error (.NumError "Atoi" "" .ErrSyntax) ∧
    getAllMoviesHandler (createMoviesHandler DB.empty Driver.healthy (.ok alpha)).2
        Driver.healthy ""
      = .json 200 (.movies [{ alpha with ID := 1 }]) :=
  ⟨rfl, by decide⟩

/-- C6, the code at the failing input: with one movie of year 2000 in the table,
`GET /movies?year=2000` answers 500 with the error of `Scan`, which got six destinations for
seven columns. -/
theorem list_year_2000_scan_error :
    (createMoviesHandler DB.empty Driver.healthy (.ok alpha)).1
      = .json 201 (.movie { alpha with ID := 1 }) ∧
    getAllMoviesHandler (createMoviesHandler DB.empty Driver.healthy (.ok alpha)).2
        Driver.healthy "2000"
      = .json 500 (.errStr "" (.ScanArgs 7 6)) := by
  constructor <;> decide

/-- C2 (as amended): for every payload whose imdbID is not yet in the table and whose genres
are a non-empty sequence of strings without comma, create answers 201 and a following get of
that imdbID answers 200 with a movie whose imdbID, title, year, rating, genres and isSuperHero
are those of the payload and whose ID is the id the store gave to the new row. -/
theorem create_then_get_returns_payload (db : DB) (drv1 drv2 : Driver) (m : Movie)
    (hp : drv1.prepareErr = none) (hx : drv1.execErr = none) (hq : drv2.queryErr = none)
    (hfresh : ∀ r ∈ db.rows, r.imdbID ≠ m.ImdbID)
    (hne : m.Genres ≠ []) (hcomma : ∀ g ∈ m.Genres, ',' ∉ g.data) :
    (createMoviesHandler db drv1 (.ok m)).1 = .json 201 (.movie { m with ID := db.nextId }) ∧
    getMoviesByIdHandler (createMoviesHandler db drv1 (.ok m)).2 drv2 m.ImdbID
      = .json 200 (.movie { m with ID := db.nextId }) ∧
    ∃ r ∈ (createMoviesHandler db drv1 (.ok m)).2.rows,
      r.imdbID = m.ImdbID ∧ r.id = db.nextId := by
  rw [createMoviesHandler_fresh db drv1 m hp hx hfresh]
  refine ⟨rfl, ?_, ⟨_, List.mem_append_right _ (List.mem_singleton.2 rfl), rfl, rfl⟩⟩
  have hs := queryRowScan_append_fresh db.rows (db.nextId + 1) drv2
    { id := db.nextId, imdbID := m.ImdbID, title := m.Title, year := m.Year,
      rating := m.Rating, genresText := some (strings.Join m.Genres ','),
      isSuperHero := fmtBool m.IsSuperHero } hq hfresh
  simp only [getMoviesByIdHandler]
  simp only [] at hs
  rw [hs, scanMovie_written]
  simp only [strings.Split_Join m.Genres ',' hne hcomma]

/-- Witness of C2: the payload of the scenario on the empty table. -/
theorem create_then_get_returns_payload_witness :
    (createMoviesHandler DB.empty Driver.healthy (.ok alpha)).1
      = .json 201 (.movie { alpha with ID := DB.empty.nextId }) ∧
    getMoviesByIdHandler (createMoviesHandler DB.empty Driver.healthy (.ok alpha)).2
        Driver.healthy alpha.ImdbID
      = .json 200 (.movie { alpha with ID := DB.empty.nextId }) ∧
    ∃ r ∈ (createMoviesHandler DB.empty Driver.healthy (.ok alpha)).2.rows,
      r.imdbID = alpha.ImdbID ∧ r.id = DB.empty.nextId :=
  create_then_get_returns_payload DB.empty Driver.healthy Driver.healthy alpha rfl rfl rfl
    (by decide) (by decide) (by decide)

/-- Counterexample to C2 as stated: a payload without genres comes back with the one genre
"", and a payload whose genre holds a comma comes back with that genre cut in two. -/
theorem create_then_get_genres_counterexample :
    getMoviesByIdHandler
        (createMoviesHandler DB.empty Driver.healthy (.ok { alpha with Genres := [] })).2
        Driver.healthy "tt001"
      = .json 200 (.movie { alpha with ID := 1, Genres := [""] }) ∧
    getMoviesByIdHandler
        (createMoviesHandler DB.empty Driver.healthy
          (.ok { alpha with Genres := ["Sci-Fi, Space"] })).2
        Driver.healthy "tt001"
      = .json 200 (.movie { alpha with ID := 1, Genres := ["Sci-Fi", " Space"] }) := by
  constructor <;> decide

/-- C4: when the insert reaches the table and the payload's imdbID is already there, create
answers 409 with "movie already exists" and hands the table back as it was; when the insert
fails with any other message, create answers 500 with that message, the table as it was. -/
theorem create_duplicate_conflict (db : DB) (drv : Driver) (m : Movie) :
    (drv.prepareErr = none → drv.execErr = none →
      (∃ r ∈ db.rows, r.imdbID = m.ImdbID) →
      createMoviesHandler db drv (.ok m)
        = (.json 409 (.str "movie already exists"), db)) ∧
    (∀ msg, drv.prepareErr = none →
      execInsert db drv m.ImdbID m.Title m.Year m.Rating (strings.Join m.Genres ',')
        (fmtBool m.IsSuperHero) = .error msg →
      msg ≠ "UNIQUE constraint violation" →
      createMoviesHandler db drv (.ok m) = (.json 500 (.str msg), db)) := by
  constructor
  · intro hp hx hdup
    simp [createMoviesHandler, execInsert, hp, hx, any_imdbID_eq_true db.rows m.ImdbID hdup]
  · intro msg hp hins hmsg
    simp [createMoviesHandler, hp, hins, hmsg]

/-- Witness of C4: the payload of the scenario a second time, and an insert that the driver
fails with "connection lost". -/
theorem create_duplicate_conflict_witness :
    createMoviesHandler (createMoviesHandler DB.empty Driver.healthy (.ok alpha)).2
        Driver.healthy (.ok alpha)
      = (.json 409 (.str "movie already exists"),
         (createMoviesHandler DB.empty Driver.healthy (.ok alpha)).2) ∧
    createMoviesHandler DB.empty { Driver.healthy with execErr := some "connection lost" }
        (.ok alpha)
      = (.json 500 (.str "connection lost"), DB.empty) :=
  ⟨(create_duplicate_conflict _ Driver.healthy alpha).1 rfl rfl (by decide),
   (create_duplicate_conflict DB.empty { Driver.healthy with execErr := some "connection lost" }
      alpha).2 "connection lost" rfl rfl (by decide)⟩

/-- C5: when the query runs and no row has the imdbID, get answers 404 with the not-found
message; get answers 200 exactly when the lookup (query and scan) succeeds; and every lookup
error other than `sql.ErrNoRows` gives 500. -/
theorem get_by_id_status (db : DB) (drv : Driver) (id : String) :
    (drv.queryErr = none → drv.rowsErr = none → (∀ r ∈ db.rows, r.imdbID ≠ id) →
      getMoviesByIdHandler db drv id = .json 404 (.obj [("message!", "not found")])) ∧
    ((getMoviesByIdHandler db drv id).status = some 200
      ↔ ∃ mg, queryRowScan db drv id = .ok mg) ∧
    (∀ e, queryRowScan db drv id = .error e → e ≠ .ErrNoRows →
      (getMoviesByIdHandler db drv id).status = some 500) := by
  refine ⟨?_, ?_, ?_⟩
  · intro hq hr habs
    simp [getMoviesByIdHandler, queryRowScan, query, hq, hr,
      filter_imdbID_eq_nil db.rows id habs]
  · unfold getMoviesByIdHandler
    cases hl : queryRowScan db drv id with
    | ok mg => simp [Outcome.status]
    | error e => cases e <;> simp [Outcome.status]
  · intro e he hne
    unfold getMoviesByIdHandler
    rw [he]
    cases e <;> simp [Outcome.status] at hne ⊢

/-- Witness of C5: `tt999` on the table that holds `tt001`, and the same lookup with a
driver whose query fails. -/
theorem get_by_id_status_witness :
    getMoviesByIdHandler (createMoviesHandler DB.empty Driver.healthy (.ok alpha)).2
        Driver.healthy "tt999"
      = .json 404 (.obj [("message!", "not found")]) ∧
    (getMoviesByIdHandler (createMoviesHandler DB.empty Driver.healthy (.ok alpha)).2
        { Driver.healthy with queryErr := some "connection lost" } "tt999").status
      = some 500 :=
  ⟨(get_by_id_status _ Driver.healthy "tt999").1 rfl rfl (by decide),
   (get_by_id_status _ { Driver.healthy with queryErr := some "connection lost" }
      "tt999").2.2 (.Driver "connection lost") rfl (by decide)⟩

/-- C7: whatever the table, the path imdbID `k`, the body and the driver, update leaves the
AUTO_INCREMENT counter alone and yields the rows in the same number and order, each with its
`id` and `imdbID` as before, and each row whose imdbID differs from `k` equal to what it
was. -/
theorem update_frame (db : DB) (drv : Driver) (k : String) (bind : Except String Movie) :
    (updateMoviesHandler db drv k bind).2.nextId = db.nextId ∧
    List.Forall₂ (fun r r2 => r2.id = r.id ∧ r2.imdbID = r.imdbID ∧ (r.imdbID ≠ k → r2 = r))
      db.rows (updateMoviesHandler db drv k bind).2.rows := by
  have hsame : List.Forall₂
      (fun r r2 : Row => r2.id = r.id ∧ r2.imdbID = r.imdbID ∧ (r.imdbID ≠ k → r2 = r))
      db.rows db.rows := List.forall₂_same.2 (fun r _ => ⟨rfl, rfl, fun _ => rfl⟩)
  unfold updateMoviesHandler
  cases bind with
  | error e => exact ⟨rfl, hsame⟩
  | ok m =>
    cases hp : drv.prepareErr with
    | some e => exact ⟨rfl, hsame⟩
    | none =>
      cases hx : drv.execErr with
      | some e =>
        simp only [execUpdate, hx]
        exact ⟨by trivial, hsame⟩
      | none =>
        simp only [execUpdate, hx]
        refine ⟨by trivial, ?_⟩
        rw [List.forall₂_map_right_iff]
        apply List.forall₂_same.2
        intro r _
        by_cases h : r.imdbID = k
        · simp [h]
        · simp [h]

/-- C9: when no `year` is given, the query succeeds, every row scans and `rows.Err()` is nil,
the list handler answers 200 with one movie per row, in the order of the rows, each with the
id, imdbID, title, year, rating and isSuperHero of its row and with genres the row's
genresText split on comma. -/
theorem list_all_maps_rows (db : DB) (drv : Driver)
    (hq : drv.queryErr = none) (hr : drv.rowsErr = none)
    (hs : ∀ r ∈ db.rows, ∃ mg, scanMovie r = .ok mg) :
    ∃ mvs, getAllMoviesHandler db drv "" = .json 200 (.movies mvs) ∧
      List.Forall₂ (fun r m =>
        m.ID = r.id ∧ m.ImdbID = r.imdbID ∧ m.Title = r.title ∧ m.Year = r.year ∧
        m.Rating = r.rating ∧ strconv.ParseBool r.isSuperHero = some m.IsSuperHero ∧
        r.genresText.map (fun g => strings.Split g ',') = some m.Genres) db.rows mvs := by
  obtain ⟨mvs, hmvs, hall⟩ := scanAll_ok db.rows [] hs
  refine ⟨mvs, ?_, hall⟩
  simp [getAllMoviesHandler, query, hq, hr, hmvs]

/-- Witness of C9: the table that holds the movie of the scenario. -/
theorem list_all_maps_rows_witness :
    ∃ mvs, getAllMoviesHandler (createMoviesHandler DB.empty Driver.healthy (.ok alpha)).2
        Driver.healthy "" = .json 200 (.movies mvs) ∧
      List.Forall₂ (fun r m =>
        m.ID = r.id ∧ m.ImdbID = r.imdbID ∧ m.Title = r.title ∧ m.Year = r.year ∧
        m.Rating = r.rating ∧ strconv.ParseBool r.isSuperHero = some m.IsSuperHero ∧
        r.genresText.map (fun g => strings.Split g ',') = some m.Genres)
        (createMoviesHandler DB.empty Driver.healthy (.ok alpha)).2.rows mvs :=
  list_all_maps_rows (createMoviesHandler DB.empty Driver.healthy (.ok alpha)).2
    Driver.healthy rfl rfl (fun r hr => by
      have hrow : r = { id := 1, imdbID := "tt001", title := "Alpha", year := 2000,
                        rating := 0x40F00000, genresText := some "Action,Drama",
                        isSuperHero := "false" } := List.mem_singleton.1 hr
      subst hrow
      exact ⟨_, rfl⟩)

/-- C8 (as amended): when the table holds a record under imdbID `k` and the body of the PUT
carries rating 8.0, update answers 200 and a following get of `k` answers 200 with rating
8.0, the record's imdbID and id, and as title always the title of the body; so the title is
the one the record had before exactly when the body repeats it. -/
theorem update_rating_then_get (db : DB) (drv1 drv2 : Driver) (k : String) (m : Movie)
    (r : Row)
    (hfind : db.rows.find? (fun x => decide (x.imdbID = k)) = some r)
    (hp : drv1.prepareErr = none) (hx : drv1.execErr = none) (hq : drv2.queryErr = none)
    (hrating : m.Rating = rating8) :
    (updateMoviesHandler db drv1 k (.ok m)).1.status = some 200 ∧
    ∃ mv, getMoviesByIdHandler (updateMoviesHandler db drv1 k (.ok m)).2 drv2 k
        = .json 200 (.movie mv) ∧
      mv.Rating = rating8 ∧ mv.ImdbID = k ∧ mv.ImdbID = r.imdbID ∧ mv.ID = r.id ∧
      mv.Title = m.Title ∧ (mv.Title = r.title ↔ m.Title = r.title) := by
  have hk : r.imdbID = k := by
    have := List.find?_some hfind
    simpa using this
  obtain ⟨rest, hrest⟩ := filter_update_head db.rows k
    (fun x => if x.imdbID = k then
        { x with title := m.Title, year := m.Year, rating := m.Rating,
                 genresText := some (strings.Join m.Genres ','),
                 isSuperHero := fmtBool m.IsSuperHero }
      else x) r
    (fun x => by by_cases h : x.imdbID = k <;> simp [h]) hfind
  subst hk
  simp only [updateMoviesHandler, execUpdate, hp, hx, Outcome.status, true_and]
  simp only [getMoviesByIdHandler, queryRowScan, query, hq, hrest, if_true]
  rw [scanMovie_written]
  exact ⟨_, rfl, hrating, rfl, rfl, rfl, rfl, Iff.rfl⟩

/-- Witness of C8: the movie of the scenario, and a PUT whose body carries rating 8.0 and
the title "Beta". -/
theorem update_rating_then_get_witness :
    (updateMoviesHandler (createMoviesHandler DB.empty Driver.healthy (.ok alpha)).2
        Driver.healthy "tt001"
        (.ok { alpha with Rating := rating8, Title := "Beta" })).1.status = some 200 ∧
    ∃ mv, getMoviesByIdHandler
        (updateMoviesHandler (createMoviesHandler DB.empty Driver.healthy (.ok alpha)).2
          Driver.healthy "tt001" (.ok { alpha with Rating := rating8, Title := "Beta" })).2
        Driver.healthy "tt001" = .json 200 (.movie mv) ∧
      mv.Rating = rating8 ∧ mv.ImdbID = "tt001" ∧ mv.ImdbID = "tt001" ∧ mv.ID = 1 ∧
      mv.Title = "Beta" ∧ (mv.Title = "Alpha" ↔ "Beta" = "Alpha") :=
  update_rating_then_get (createMoviesHandler DB.empty Driver.healthy (.ok alpha)).2
    Driver.healthy Driver.healthy "tt001" { alpha with Rating := rating8, Title := "Beta" }
    { id := 1, imdbID := "tt001", title := "Alpha", year := 2000, rating := 0x40F00000,
      genresText := some "Action,Drama", isSuperHero := "false" }
    (by decide) rfl rfl rfl rfl

/-- Counterexample to C8 as stated: after the create of the scenario, a PUT whose body
carries `rating: 8.0` and nothing else answers 200, and the following get reports rating 8.0
with the empty title, not "Alpha". -/
theorem update_rating_only_title_counterexample :
    (updateMoviesHandler (createMoviesHandler DB.empty Driver.healthy (.ok alpha)).2
        Driver.healthy "tt001" (.ok { Movie.zero with Rating := rating8 })).1.status
      = some 200 ∧
    getMoviesByIdHandler (createMoviesHandler DB.empty Driver.healthy (.ok alpha)).2
        Driver.healthy "tt001"
      = .json 200 (.movie { alpha with ID := 1 }) ∧
    getMoviesByIdHandler
        (updateMoviesHandler (createMoviesHandler DB.empty Driver.healthy (.ok alpha)).2
          Driver.healthy "tt001" (.ok { Movie.zero with Rating := rating8 })).2
        Driver.healthy "tt001"
      = .json 200 (.movie { ID := 1, ImdbID := "tt001", Title := "", Year := 0,
                            Rating := rating8, Genres := [""], IsSuperHero := false }) := by
  refine ⟨?_, ?_, ?_⟩ <;> decide

/-- The filtered list on a driver that does not fail: for a `year` that `Atoi` parses as
`n`, the answer is 200 with the empty array when no row has year `n`, and 500 with the
argument-count error of `Scan` as soon as one row has. -/
theorem list_year_filter_outcome (db : DB) (drv : Driver) (y : String) (n : Int)
    (hn : strconv.Atoi y = .ok n) (hq : drv.queryErr = none) (hr : drv.rowsErr = none) :
    ((∀ r ∈ db.rows, r.year ≠ n) → getAllMoviesHandler db drv y = .json 200 (.movies [])) ∧
    ((∃ r ∈ db.rows, r.year = n) →
      getAllMoviesHandler db drv y = .json 500 (.errStr "" (.ScanArgs 7 6))) := by
  have hy : y ≠ "" := Atoi_ok_ne_empty y n hn
  constructor
  · intro habs
    have hf : db.rows.filter (fun r => decide (r.year = n)) = [] :=
      List.filter_eq_nil_iff.2 (fun r hr => by simpa using habs r hr)
    simp [getAllMoviesHandler, hy, hn, query, hq, hr, hf, scanYear]
  · intro hex
    obtain ⟨r, hmem, hyear⟩ := hex
    have hm : r ∈ db.rows.filter (fun r => decide (r.year = n)) :=
      List.mem_filter.2 ⟨hmem, by simpa using hyear⟩
    cases hf : db.rows.filter (fun r => decide (r.year = n)) with
    | nil => simp [hf] at hm
    | cons x xs =>
      simp [getAllMoviesHandler, hy, hn, query, hq, hf, scanYear, scanMovieNoGenres_error,
        jsonError]

/-- Witness of the filtered list: year 2001 and year 2000 on the table that holds the movie
of the scenario, of year 2000. -/
theorem list_year_filter_outcome_witness :
    getAllMoviesHandler (createMoviesHandler DB.empty Driver.healthy (.ok alpha)).2
        Driver.healthy "2001" = .json 200 (.movies []) ∧
    getAllMoviesHandler (createMoviesHandler DB.empty Driver.healthy (.ok alpha)).2
        Driver.healthy "2000" = .json 500 (.errStr "" (.ScanArgs 7 6)) :=
  ⟨(list_year_filter_outcome _ Driver.healthy "2001" 2001 rfl rfl rfl).1 (by decide),
   (list_year_filter_outcome _ Driver.healthy "2000" 2000 rfl rfl rfl).2 (by decide)⟩

/-- What `strconv.Atoi` accepts: a value it parses is an optional sign followed by one or more
decimal digits, and the result lies in the range of a 64-bit `int`. -/
theorem Atoi_ok_numeric (y : String) (n : Int) (h : strconv.Atoi y = .ok n) :
    ∃ ds, ds ≠ [] ∧ (∀ c ∈ ds, '0' ≤ c ∧ c ≤ '9') ∧
      (y.data = ds ∨ y.data = '+' :: ds ∨ y.data = '-' :: ds) ∧
      -(2 : Int) ^ 63 ≤ n ∧ n < 2 ^ 63 := by
  unfold strconv.Atoi at h
  cases hp : strconv.ParseInt y.data with
  | error k => simp [hp] at h
  | ok v =>
    simp only [hp] at h
    have hv : v = n := Except.ok.inj h
    subst hv
    exact ParseInt_ok_shape y.data v hp

/-- Witness of the shape of parsed values: `-2000`. -/
theorem Atoi_ok_numeric_witness :
    ∃ ds, ds ≠ [] ∧ (∀ c ∈ ds, '0' ≤ c ∧ c ≤ '9') ∧
      ("-2000".data = ds ∨ "-2000".data = '+' :: ds ∨ "-2000".data = '-' :: ds) ∧
      -(2 : Int) ^ 63 ≤ -2000 ∧ (-2000 : Int) < 2 ^ 63 :=
  Atoi_ok_numeric "-2000" (-2000) rfl

end GoImdb
